import Mathlib

/-!
Shallow embedding of the TRADER frontend core: the fetch orchestrator and
periodic refresher of `src/frontend/src/App.tsx` and the HTTP/WebSocket
client of `src/frontend/src/api/client.ts`, together with theorems settling
the frozen claims about them.

Numeric payload fields (JS `number`) are modelled as `Int`: no claim performs
arithmetic on them, they are only stored, replaced and compared.
-/

namespace Trader

/-- `Ticker` (types/index.ts): latest price snapshot; nullable fields are
`Option`. Replaced wholesale by the code, never merged field by field. -/
structure Ticker where
  symbol : String
  last : Int
  bid : Option Int
  ask : Option Int
  high : Option Int
  low : Option Int
  volume : Option Int
  change : Option Int
  percentage : Option Int
  timestamp : Int
deriving DecidableEq

/-- `OHLCV` (types/index.ts): one chart bar. -/
structure OHLCV where
  timestamp : Int
  datetime : String
  «open» : Int
  high : Int
  low : Int
  close : Int
  volume : Int
deriving DecidableEq

/-- `FullAnalysis` (types/index.ts): large aggregate analysis result. The
verified core (the App state logic) stores and clears it atomically and never
reads its fields; the fields kept here are representative scalars of the
interface, the purely presentational sub-aggregates being consumed only by
the excluded presentation components. -/
structure FullAnalysis where
  symbol : String
  exchange : String
  generated_at : String
  current_price : Int
  confidence : String
  analysis_narrative : String
deriving DecidableEq

/-- Model of a rejection value of the axios HTTP client (the `err` caught in
App.tsx): a JS `Error` with a `message` string (an absent message is the
empty string, the falsy case of `err.message`) and, for HTTP errors, the
response body when one was received. The body's `message` field models the
error payload `{"message": ...}`. -/
structure AxiosErr where
  message : String
  responseBody : Option String
deriving DecidableEq

/-- Model of the axios dependency's behaviour on a non-2xx HTTP response:
the promise rejects with an error whose `message` is the fixed axios text
"Request failed with status code <status>" and whose attached response
carries the body; the body's own message is NOT copied into `err.message`. -/
def axiosHttpError (status : Nat) (body : Option String) : AxiosErr :=
  { message := "Request failed with status code " ++ toString status,
    responseBody := body }

/-! ## Push channel client: `TickerWebSocket` (client.ts 77-125) -/

/-- Inbound push-channel envelope `{type, data}` (client.ts 100-105, spec §4.3
message contract), after successful JSON parsing. -/
structure Envelope where
  type : String
  data : Ticker
deriving DecidableEq

/-- Observable effect of one run of the `onmessage` handler. -/
structure MsgEffect where
  tickerUpdate : Option Ticker
  errorReported : Bool
  threw : Bool
  attemptsDelta : Nat
deriving DecidableEq

/-- The `onmessage` handler (client.ts 100-105). The inbound frame text is
modelled by `Option Envelope`: `some e` when `JSON.parse` succeeds with a
`{type, data}` object, `none` when it throws on a non-parseable payload.
The handler body has no try/catch, so in the `none` case the `JSON.parse`
exception escapes the handler (`threw := true`); `onError` is wired only to
the socket error event (lines 107-109) and is not invoked here, and the
reconnect counter is touched only in `onclose` (lines 111-116), so
`attemptsDelta = 0` in every case. -/
def onmessage (payload : Option Envelope) : MsgEffect :=
  match payload with
  | none =>
      { tickerUpdate := none, errorReported := false, threw := true, attemptsDelta := 0 }
  | some e =>
      if e.type = "ticker" then
        { tickerUpdate := some e.data, errorReported := false, threw := false, attemptsDelta := 0 }
      else
        { tickerUpdate := none, errorReported := false, threw := false, attemptsDelta := 0 }

/-- `maxReconnectAttempts` (client.ts 84). -/
def maxReconnectAttempts : Nat := 5

/-- The fixed reconnect delay passed to `setTimeout` (client.ts 114), in ms. -/
def reconnectDelayMs : Nat := 3000

/-- State of one `TickerWebSocket` instance plus the part of its environment
(sockets, timers) needed to follow the code. `wsNonNull` is whether the
`ws` field holds a socket; `socketsCreated` counts `new WebSocket(...)`
constructions; `closesDelivered` counts close events delivered so far (each
created socket delivers at most one); `pendingTimers` holds the delays of
scheduled, not yet fired, reconnect timers; `scheduledDelays` is the log of
the delay of every reconnect ever scheduled by `onclose`. -/
structure WSState where
  reconnectAttempts : Nat
  wsNonNull : Bool
  socketsCreated : Nat
  closesDelivered : Nat
  pendingTimers : List Nat
  scheduledDelays : List Nat
deriving DecidableEq

/-- A freshly constructed client (client.ts 83, 86-94): counter 0, no socket. -/
def initWS : WSState :=
  { reconnectAttempts := 0, wsNonNull := false, socketsCreated := 0,
    closesDelivered := 0, pendingTimers := [], scheduledDelays := [] }

/-- Body of `connect()` (client.ts 96-117): constructs a new `WebSocket` and
installs the `onmessage`/`onerror`/`onclose` handlers on it. It does not
reset `reconnectAttempts`. -/
def connect (s : WSState) : WSState :=
  { s with socketsCreated := s.socketsCreated + 1, wsNonNull := true }

/-- Body of the `onclose` handler (client.ts 111-116): if the counter is
below the budget, increment it and schedule `connect` after 3000 ms. It runs
on every close event, with no distinction between an error close and the
close caused by an explicit `disconnect()`. -/
def onclose (s : WSState) : WSState :=
  if s.reconnectAttempts < maxReconnectAttempts then
    { s with reconnectAttempts := s.reconnectAttempts + 1,
             pendingTimers := s.pendingTimers ++ [reconnectDelayMs],
             scheduledDelays := s.scheduledDelays ++ [reconnectDelayMs] }
  else s

/-- Body of `disconnect()` (client.ts 119-124): if a socket is present, call
`close()` on it (its close event is delivered later by the event loop) and
null the field. It does not clear pending reconnect timers, does not reset
the counter, and does not detach the `onclose` handler of the socket. -/
def disconnect (s : WSState) : WSState :=
  if s.wsNonNull then { s with wsNonNull := false } else s

/-- Events driving a `TickerWebSocket` instance: the two public calls, the
event loop delivering a close event for a created socket, and a scheduled
reconnect timer firing (its callback is `() => this.connect()`). -/
inductive WSEvent where
  | connectCall
  | disconnectCall
  | closeEvent
  | timerFire
deriving DecidableEq

/-- One step of the client under an event, as dictated by the handler bodies
above. A close event runs `onclose` and consumes one undelivered close; a
timer fire consumes one pending timer and runs `connect`. -/
def wsStep (s : WSState) : WSEvent → WSState
  | WSEvent.connectCall => connect s
  | WSEvent.disconnectCall => disconnect s
  | WSEvent.closeEvent => { onclose s with closesDelivered := s.closesDelivered + 1 }
  | WSEvent.timerFire => connect { s with pendingTimers := s.pendingTimers.tail }

/-- Which events the environment can produce in a given state: calls are
always possible; a close event needs a created socket whose close has not
yet been delivered; a timer fire needs a pending timer. -/
def wsEventValid (s : WSState) : WSEvent → Bool
  | WSEvent.connectCall => true
  | WSEvent.disconnectCall => true
  | WSEvent.closeEvent => s.closesDelivered < s.socketsCreated
  | WSEvent.timerFire => !s.pendingTimers.isEmpty

/-- Run a sequence of events. -/
def wsRun (s : WSState) (es : List WSEvent) : WSState :=
  es.foldl wsStep s

/-- Every event of the sequence is possible at the state it is taken in. -/
def wsTraceValid (s : WSState) : List WSEvent → Bool
  | [] => true
  | e :: es => wsEventValid s e && wsTraceValid (wsStep s e) es

/-- Number of close events in a sequence. -/
def closeCount : List WSEvent → Nat
  | [] => 0
  | WSEvent.closeEvent :: es => closeCount es + 1
  | _ :: es => closeCount es

/-! ## Symbol path transform (client.ts 12) -/

/-- First-occurrence character replacement, the semantics of JS
`String.replace` with a one-character string pattern: only the first
occurrence of `c` is replaced by `d`. -/
def replaceFirst (c d : Char) : List Char → List Char
  | [] => []
  | x :: xs => if x = c then d :: xs else x :: replaceFirst c d xs

/-- `formatSymbol` (client.ts 12): `symbol.replace('/', '-')`. -/
def formatSymbol (s : String) : String :=
  String.mk (replaceFirst '/' '-' s.data)

/-- Modelled from the spec: the inverse display transform ("replacing `-`
back with `/`", spec §6/§8). No reverse mapping exists under `src/` — the
components only strip the `/USDT` suffix — so it is modelled as the same
first-occurrence replacement in the opposite direction, matching the
convention of `formatSymbol`. -/
def unformatSymbol (s : String) : String :=
  String.mk (replaceFirst '-' '/' s.data)

/-- Number of occurrences of a character in a string's character list. -/
def charCount (c : Char) (s : String) : Nat :=
  (s.data.filter (fun x => x = c)).length

/-! ## View model state and fetch orchestrator (App.tsx) -/

/-- The independent per-source loading flags (App.tsx 32-37, spec §3
`LoadingState`). -/
structure LoadingState where
  symbols : Bool
  ticker : Bool
  chart : Bool
  analysis : Bool
deriving DecidableEq

/-- The aggregated view model state held by `App` (App.tsx 24-40):
`useState` cells for symbols, selection, the three entities, the loading
flags, the shared error field and the last-update stamp. The timestamp of
`new Date()` is modelled as an `Int`. -/
structure ViewModel where
  symbols : List String
  selectedSymbol : String
  chartTimeframe : String
  ticker : Option Ticker
  ohlcv : List OHLCV
  analysis : Option FullAnalysis
  loading : LoadingState
  error : Option String
  lastUpdate : Option Int
deriving DecidableEq

/-- The initial state of the `useState` cells (App.tsx 24-40). -/
def initVM : ViewModel :=
  { symbols := [], selectedSymbol := "BTC/USDT", chartTimeframe := "1h",
    ticker := none, ohlcv := [], analysis := none,
    loading := { symbols := false, ticker := false, chart := false, analysis := false },
    error := none, lastUpdate := none }

/-- The catch branch of the analysis fetch (App.tsx 92):
`err.message || 'Failed to fetch analysis'`. JS `a || b` yields `b` exactly
when `a` is falsy, which for the message string is the empty string. Note
it reads the error object's own `message`, not the response body. -/
def analysisErrorMessage (e : AxiosErr) : String :=
  if e.message = "" then "Failed to fetch analysis" else e.message

/-- Events of the App core. One invocation of the async `fetchData`
(App.tsx 59-96) is cut at its `await` suspension points into four events:
`fetchStart` runs the prefix up to the first await (clear the error, set the
ticker loading flag, issue the ticker request for the captured
symbol/timeframe); each `...Done` event is the resumption that consumes one
response and runs up to the next await. `symbolChange` and
`timeframeChange` are the two intent handlers (App.tsx 116-124), and
`periodicTick` is one firing of the 5000 ms interval body
(App.tsx 104-111) with the symbol it captured. Between any two events the
event loop may run other events: this is where interleavings come from. -/
inductive AppEvent where
  | fetchStart (sym tf : String)
  | fetchTickerDone (sym tf : String) (r : Except AxiosErr Ticker)
  | fetchChartDone (sym tf : String) (r : Except AxiosErr (List OHLCV))
  | fetchAnalysisDone (sym tf : String) (r : Except AxiosErr FullAnalysis) (now : Int)
  | symbolChange (newSym : String)
  | timeframeChange (tf : String)
  | periodicTick (sym : String) (r : Except AxiosErr Ticker)

/-- Prefix of `fetchData` up to the first await (App.tsx 60-65):
`setError(null)`, `setLoading({ticker: true})`, issue `getTicker`. -/
def fetchStartStep (vm : ViewModel) : ViewModel :=
  { vm with error := none, loading := { vm.loading with ticker := true } }

/-- Resumption after `await marketApi.getTicker` (App.tsx 65-76): on success
`setTicker(tickerData)`, on failure only a console log; the finally clause
clears the ticker loading flag; then the OHLCV phase sets its own flag and
issues `getOHLCV`. The applied response is not compared against the
currently selected symbol: there is no generation tag or check. -/
def fetchTickerDoneStep (vm : ViewModel) (r : Except AxiosErr Ticker) : ViewModel :=
  let vm := match r with
    | Except.ok t => { vm with ticker := some t }
    | Except.error _ => vm
  { vm with loading := { vm.loading with ticker := false, chart := true } }

/-- Resumption after `await marketApi.getOHLCV` (App.tsx 76-87): on success
`setOhlcv`, on failure only a log; clear the chart flag; then the analysis
phase sets its flag and issues `getFullAnalysis`. No generation check. -/
def fetchChartDoneStep (vm : ViewModel) (r : Except AxiosErr (List OHLCV)) : ViewModel :=
  let vm := match r with
    | Except.ok bars => { vm with ohlcv := bars }
    | Except.error _ => vm
  { vm with loading := { vm.loading with chart := false, analysis := true } }

/-- Resumption after `await analysisApi.getFullAnalysis` (App.tsx 87-95):
on success `setAnalysis` and `setLastUpdate(new Date())`, on failure
`setError(err.message || 'Failed to fetch analysis')`; the finally clause
clears the analysis flag. No generation check. -/
def fetchAnalysisDoneStep (vm : ViewModel) (r : Except AxiosErr FullAnalysis)
    (now : Int) : ViewModel :=
  let vm := match r with
    | Except.ok a => { vm with analysis := some a, lastUpdate := some now }
    | Except.error e => { vm with error := some (analysisErrorMessage e) }
  { vm with loading := { vm.loading with analysis := false } }

/-- `handleSymbolChange` (App.tsx 116-120): select the new symbol and clear
the analysis and ticker entities. -/
def handleSymbolChange (vm : ViewModel) (symbol : String) : ViewModel :=
  { vm with selectedSymbol := symbol, analysis := none, ticker := none }

/-- `handleTimeframeChange` (App.tsx 122-124). -/
def handleTimeframeChange (vm : ViewModel) (tf : String) : ViewModel :=
  { vm with chartTimeframe := tf }

/-- Body of the periodic-refresh interval callback (App.tsx 104-111): fetch
the ticker for the captured symbol; on success `setTicker(tickerData)`; on
failure the catch block is empty (silent), so the state is untouched. -/
def periodicTickStep (vm : ViewModel) (r : Except AxiosErr Ticker) : ViewModel :=
  match r with
  | Except.ok t => { vm with ticker := some t }
  | Except.error _ => vm

/-- One step of the App core under an event. -/
def appStep (vm : ViewModel) : AppEvent → ViewModel
  | AppEvent.fetchStart _ _ => fetchStartStep vm
  | AppEvent.fetchTickerDone _ _ r => fetchTickerDoneStep vm r
  | AppEvent.fetchChartDone _ _ r => fetchChartDoneStep vm r
  | AppEvent.fetchAnalysisDone _ _ r now => fetchAnalysisDoneStep vm r now
  | AppEvent.symbolChange newSym => handleSymbolChange vm newSym
  | AppEvent.timeframeChange tf => handleTimeframeChange vm tf
  | AppEvent.periodicTick _ r => periodicTickStep vm r

/-- Run a sequence of App events. -/
def runApp (vm : ViewModel) (es : List AppEvent) : ViewModel :=
  es.foldl appStep vm

/-- Whether an event is the start of a `fetchData` invocation for the given
captured symbol and timeframe. -/
def isStartFor (sym tf : String) : AppEvent → Bool
  | AppEvent.fetchStart s t => s = sym && t = tf
  | _ => false

/-- A resumption event is admissible after a prefix of events when a
`fetchData` invocation with the same captured symbol and timeframe was
started in that prefix; all other events are always admissible. -/
def resumptionOk (pre : List AppEvent) : AppEvent → Bool
  | AppEvent.fetchTickerDone s t _ => pre.any (isStartFor s t)
  | AppEvent.fetchChartDone s t _ => pre.any (isStartFor s t)
  | AppEvent.fetchAnalysisDone s t _ _ => pre.any (isStartFor s t)
  | _ => true

/-- Every event of the trace is admissible after the events before it. -/
def appTraceWF (pre : List AppEvent) : List AppEvent → Bool
  | [] => true
  | e :: es => resumptionOk pre e && appTraceWF (pre ++ [e]) es

/-- One whole uninterrupted `fetchData` invocation (App.tsx 59-96): the four
segments run back to back with no other event interleaved. -/
def fetchData (vm : ViewModel) (sym tf : String) (tR : Except AxiosErr Ticker)
    (oR : Except AxiosErr (List OHLCV)) (aR : Except AxiosErr FullAnalysis)
    (now : Int) : ViewModel :=
  runApp vm
    [AppEvent.fetchStart sym tf,
     AppEvent.fetchTickerDone sym tf tR,
     AppEvent.fetchChartDone sym tf oR,
     AppEvent.fetchAnalysisDone sym tf aR now]

/-! ## Issue/consume order of the three fetches (App.tsx 59-96) -/

/-- The three request/response sources of `fetchData`. -/
inductive Source where
  | ticker
  | chart
  | analysis
deriving DecidableEq

/-- A request being put on the wire, or its response being consumed (the
corresponding `await` returning). -/
inductive FetchAction where
  | issue (s : Source)
  | consume (s : Source)
deriving DecidableEq

def isIssue : FetchAction → Bool
  | FetchAction.issue _ => true
  | FetchAction.consume _ => false

/-- The body of `fetchData` as a program in a minimal async language:
`awaitCall s` is `await <request to source s>`, and `seq` is JS statement
sequencing. The source (App.tsx 59-96) is three awaited calls in sequence:
ticker (line 65), OHLCV (line 76), full analysis (line 87). -/
inductive Async where
  | awaitCall (s : Source)
  | seq (a b : Async)
  | done

/-- `fetchData`'s body (App.tsx 59-96) as an `Async` program. -/
def fetchDataProg : Async :=
  Async.seq (Async.awaitCall Source.ticker)
    (Async.seq (Async.awaitCall Source.chart)
      (Async.seq (Async.awaitCall Source.analysis) Async.done))

/-- The issue/consume trace of an `Async` program under JS `await`
semantics: an awaited call issues its request and then suspends until the
response is consumed, and only then does the next statement run. -/
def asyncActions : Async → List FetchAction
  | Async.awaitCall s => [FetchAction.issue s, FetchAction.consume s]
  | Async.seq a b => asyncActions a ++ asyncActions b
  | Async.done => []

/-- The issue/consume trace of one `fetchData` invocation. -/
def fetchDataActions : List FetchAction :=
  asyncActions fetchDataProg

/-- The claim's property, in its own words: all three requests are issued
before any of their responses is consumed, i.e. every one of the three
issues occurs in the initial all-issue segment of the trace. Stated from
the spec, to be compared with the trace derived from the source. -/
def specIssuedBeforeAnyConsume (l : List FetchAction) : Prop :=
  FetchAction.issue Source.ticker ∈ l.takeWhile isIssue
  ∧ FetchAction.issue Source.chart ∈ l.takeWhile isIssue
  ∧ FetchAction.issue Source.analysis ∈ l.takeWhile isIssue

/-! ## Periodic refresher lifecycle (App.tsx 103-114) -/

/-- An interval timer registered by `setInterval`: its delay and the symbol
captured by its callback closure. -/
structure RefresherInterval where
  delayMs : Nat
  sym : String
deriving DecidableEq

/-- One run of the periodic-refresh effect (App.tsx 103-114) for the current
`selectedSymbol`. React runs the previous run's cleanup — `clearInterval`
(line 113), which fully stops whatever interval was live — before the body
registers a new 5000 ms interval (lines 104-111) capturing the current
symbol; hence the result does not depend on the previously live interval. -/
def refresherEffectRun (_live : Option RefresherInterval) (sym : String) :
    Option RefresherInterval :=
  some { delayMs := 5000, sym := sym }

/-! ## Concrete fixtures -/

/-- A ticker for the old symbol of the symbol-switch scenario. -/
def btcTicker : Ticker :=
  { symbol := "BTC/USDT", last := 100, bid := none, ask := none, high := none,
    low := none, volume := none, change := none, percentage := none, timestamp := 1 }

/-- A ticker for the new symbol of the symbol-switch scenario. -/
def ethTicker : Ticker :=
  { symbol := "ETH/USDT", last := 50, bid := none, ask := none, high := none,
    low := none, volume := none, change := none, percentage := none, timestamp := 2 }

/-- An analysis result for the new symbol. -/
def ethAnalysis : FullAnalysis :=
  { symbol := "ETH/USDT", exchange := "binance", generated_at := "t2",
    current_price := 50, confidence := "High", analysis_narrative := "n" }

/-- An interleaving the event loop can produce around a symbol switch: a
`fetchData` invocation starts for BTC/USDT and suspends at its ticker await;
the user switches to ETH/USDT (which also triggers a fresh invocation); the
new invocation runs to completion; then the network finally delivers the old
invocation's ticker response, whose resumption applies it. -/
def staleTrace : List AppEvent :=
  [AppEvent.fetchStart "BTC/USDT" "1h",
   AppEvent.symbolChange "ETH/USDT",
   AppEvent.fetchStart "ETH/USDT" "1h",
   AppEvent.fetchTickerDone "ETH/USDT" "1h" (Except.ok ethTicker),
   AppEvent.fetchChartDone "ETH/USDT" "1h" (Except.ok []),
   AppEvent.fetchAnalysisDone "ETH/USDT" "1h" (Except.ok ethAnalysis) 5,
   AppEvent.fetchTickerDone "BTC/USDT" "1h" (Except.ok btcTicker)]

/-- Explicit disconnect followed by the close event it provokes and the
reconnect timer that close schedules. -/
def disconnectReconnectTrace : List WSEvent :=
  [WSEvent.connectCall, WSEvent.disconnectCall, WSEvent.closeEvent, WSEvent.timerFire]

/-- A single unexpected close whose scheduled reconnect then succeeds. -/
def singleFailureTrace : List WSEvent :=
  [WSEvent.connectCall, WSEvent.closeEvent, WSEvent.timerFire]

/-- A client whose retry budget is exhausted. -/
def exhaustedWS : WSState :=
  { reconnectAttempts := 5, wsNonNull := true, socketsCreated := 6,
    closesDelivered := 5, pendingTimers := [],
    scheduledDelays := [3000, 3000, 3000, 3000, 3000] }

/-! ## Helper lemmas -/

/-- Replacing the first occurrence of `c`, when `c` does not occur in the
prefix `l`, rewrites exactly the marked occurrence. -/
theorem replaceFirst_append (c d : Char) (l r : List Char) (h : c ∉ l) :
    replaceFirst c d (l ++ c :: r) = l ++ d :: r := by
  induction l with
  | nil => simp [replaceFirst]
  | cons x xs ih =>
      simp only [List.mem_cons, not_or] at h
      have hx : ¬ x = c := fun hxc => h.1 hxc.symm
      simp [replaceFirst, hx, ih h.2]

/-- Unfolding equations for `wsRun`. -/
theorem wsRun_nil (s : WSState) : wsRun s [] = s := rfl

theorem wsRun_cons (s : WSState) (e : WSEvent) (es : List WSEvent) :
    wsRun s (e :: es) = wsRun (wsStep s e) es := rfl

/-- `disconnect` never touches the retry counter. -/
theorem disconnect_attempts (s : WSState) :
    (disconnect s).reconnectAttempts = s.reconnectAttempts := by
  unfold disconnect
  split <;> rfl

/-- `disconnect` never touches the schedule log. -/
theorem disconnect_scheduled (s : WSState) :
    (disconnect s).scheduledDelays = s.scheduledDelays := by
  unfold disconnect
  split <;> rfl

/-- `onclose` below budget: increment and schedule. -/
theorem onclose_lt (s : WSState) (h : s.reconnectAttempts < maxReconnectAttempts) :
    onclose s =
      { s with reconnectAttempts := s.reconnectAttempts + 1,
               pendingTimers := s.pendingTimers ++ [reconnectDelayMs],
               scheduledDelays := s.scheduledDelays ++ [reconnectDelayMs] } := by
  unfold onclose
  rw [if_pos h]

/-- `onclose` at budget: no action. -/
theorem onclose_ge (s : WSState) (h : ¬ s.reconnectAttempts < maxReconnectAttempts) :
    onclose s = s := by
  unfold onclose
  rw [if_neg h]

/-- No event of the client lowers the retry counter. -/
theorem wsStep_attempts_mono (s : WSState) (e : WSEvent) :
    s.reconnectAttempts ≤ (wsStep s e).reconnectAttempts := by
  cases e with
  | connectCall => exact Nat.le_refl _
  | disconnectCall =>
      show s.reconnectAttempts ≤ (disconnect s).reconnectAttempts
      rw [disconnect_attempts]
  | closeEvent =>
      show s.reconnectAttempts ≤ (onclose s).reconnectAttempts
      by_cases h : s.reconnectAttempts < maxReconnectAttempts
      · rw [onclose_lt s h]
        exact Nat.le_succ _
      · rw [onclose_ge s h]
  | timerFire => exact Nat.le_refl _

/-- Once the counter has reached the budget, no event appends to the log of
scheduled reconnects. -/
theorem wsStep_scheduled_frozen (s : WSState) (e : WSEvent)
    (h : maxReconnectAttempts ≤ s.reconnectAttempts) :
    (wsStep s e).scheduledDelays = s.scheduledDelays := by
  cases e with
  | connectCall => rfl
  | disconnectCall =>
      show (disconnect s).scheduledDelays = s.scheduledDelays
      exact disconnect_scheduled s
  | closeEvent =>
      show (onclose s).scheduledDelays = s.scheduledDelays
      rw [onclose_ge s (Nat.not_lt.mpr h)]
  | timerFire => rfl

/-- Folded form of the two step facts above. -/
theorem wsRun_attempts_mono_frozen (es : List WSEvent) (s : WSState) :
    s.reconnectAttempts ≤ (wsRun s es).reconnectAttempts
    ∧ (maxReconnectAttempts ≤ s.reconnectAttempts →
        (wsRun s es).scheduledDelays = s.scheduledDelays) := by
  induction es generalizing s with
  | nil => exact ⟨Nat.le_refl _, fun _ => rfl⟩
  | cons e es ih =>
      have hmono := wsStep_attempts_mono s e
      have h := ih (wsStep s e)
      refine ⟨Nat.le_trans hmono h.1, fun hmax => ?_⟩
      have h2 := h.2 (Nat.le_trans hmax hmono)
      show (wsRun (wsStep s e) es).scheduledDelays = s.scheduledDelays
      rw [h2, wsStep_scheduled_frozen s e hmax]

/-- Exact evolution of the counter and the schedule log under any event
sequence, from any state whose log matches its counter. -/
theorem closeCount_cons_close (es : List WSEvent) :
    closeCount (WSEvent.closeEvent :: es) = closeCount es + 1 := rfl

theorem wsRun_attempts_closed (es : List WSEvent) (s : WSState)
    (h5 : s.reconnectAttempts ≤ maxReconnectAttempts)
    (hd : s.scheduledDelays = List.replicate s.reconnectAttempts reconnectDelayMs) :
    (wsRun s es).reconnectAttempts
      = min (s.reconnectAttempts + closeCount es) maxReconnectAttempts
    ∧ (wsRun s es).scheduledDelays
      = List.replicate (min (s.reconnectAttempts + closeCount es) maxReconnectAttempts)
          reconnectDelayMs := by
  induction es generalizing s with
  | nil =>
      have hmin : min (s.reconnectAttempts + closeCount []) maxReconnectAttempts
          = s.reconnectAttempts := by
        show min s.reconnectAttempts maxReconnectAttempts = s.reconnectAttempts
        exact min_eq_left h5
      exact ⟨by rw [hmin]; rfl, by rw [hmin]; exact hd⟩
  | cons e es ih =>
      cases e with
      | connectCall => exact ih (wsStep s WSEvent.connectCall) h5 hd
      | timerFire => exact ih (wsStep s WSEvent.timerFire) h5 hd
      | disconnectCall =>
          have hA : (wsStep s WSEvent.disconnectCall).reconnectAttempts
              = s.reconnectAttempts := disconnect_attempts s
          have hD : (wsStep s WSEvent.disconnectCall).scheduledDelays
              = s.scheduledDelays := disconnect_scheduled s
          have h := ih (wsStep s WSEvent.disconnectCall) (by rw [hA]; exact h5)
            (by rw [hA, hD]; exact hd)
          rw [hA] at h
          exact h
      | closeEvent =>
          by_cases hlt : s.reconnectAttempts < maxReconnectAttempts
          · have hA : (wsStep s WSEvent.closeEvent).reconnectAttempts
                = s.reconnectAttempts + 1 := by
              show (onclose s).reconnectAttempts = _
              rw [onclose_lt s hlt]
            have hD : (wsStep s WSEvent.closeEvent).scheduledDelays
                = s.scheduledDelays ++ [reconnectDelayMs] := by
              show (onclose s).scheduledDelays = _
              rw [onclose_lt s hlt]
            have h := ih (wsStep s WSEvent.closeEvent) (by rw [hA]; exact hlt)
              (by rw [hA, hD, hd, List.replicate_succ'])
            rw [hA] at h
            have harith : s.reconnectAttempts + 1 + closeCount es
                = s.reconnectAttempts + closeCount (WSEvent.closeEvent :: es) := by
              rw [closeCount_cons_close]
              omega
            rw [wsRun_cons, h.1, h.2, harith]
            exact ⟨rfl, rfl⟩
          · have hA : (wsStep s WSEvent.closeEvent).reconnectAttempts
                = s.reconnectAttempts := by
              show (onclose s).reconnectAttempts = _
              rw [onclose_ge s hlt]
            have hD : (wsStep s WSEvent.closeEvent).scheduledDelays
                = s.scheduledDelays := by
              show (onclose s).scheduledDelays = _
              rw [onclose_ge s hlt]
            have h := ih (wsStep s WSEvent.closeEvent) (by rw [hA]; exact h5)
              (by rw [hA, hD]; exact hd)
            rw [hA] at h
            have heq : s.reconnectAttempts = maxReconnectAttempts :=
              Nat.le_antisymm h5 (Nat.not_lt.mp hlt)
            have hm1 : min (s.reconnectAttempts + closeCount es) maxReconnectAttempts
                = maxReconnectAttempts := by
              rw [heq]
              exact min_eq_right (Nat.le_add_right _ _)
            have hm2 : min (s.reconnectAttempts + closeCount (WSEvent.closeEvent :: es))
                maxReconnectAttempts = maxReconnectAttempts := by
              rw [heq]
              exact min_eq_right (Nat.le_add_right _ _)
            rw [wsRun_cons, h.1, h.2, hm1, hm2]
            exact ⟨rfl, rfl⟩

/-! ## Claim theorems -/

/-- C1: the claim requires every fetch to be generation-tagged and late
responses for an old symbol to be discarded. The code has no such guard:
in the valid interleaving `staleTrace`, a fetch issued for BTC/USDT is
resumed after the user has switched to ETH/USDT and after ETH/USDT's own
fetch succeeded, and its BTC ticker is applied to the view model —
the final state shows the old symbol's ticker under the new selection. -/
theorem C1_stale_old_symbol_response_applied :
    appTraceWF [] staleTrace = true
    ∧ (runApp initVM staleTrace).selectedSymbol = "ETH/USDT"
    ∧ (runApp initVM staleTrace).analysis = some ethAnalysis
    ∧ (runApp initVM staleTrace).ticker = some btcTicker
    ∧ btcTicker.symbol = "BTC/USDT" :=
  ⟨rfl, rfl, rfl, rfl, rfl⟩

/-- C2: the claim says an explicit `disconnect()` never leads to a new
socket via the 3000 ms retry path. In the code, `disconnect()` calls
`ws.close()` without detaching `onclose` or marking the close as
intentional; the resulting close event increments the counter and schedules
a reconnect, which creates a second socket: after the valid trace
`[connect, disconnect, close, timer]` two sockets have been created, the
second one after the disconnect, with a 3000 ms reconnect in the log. -/
theorem C2_disconnect_triggers_reconnect :
    wsTraceValid initWS disconnectReconnectTrace = true
    ∧ (wsRun initWS [WSEvent.connectCall, WSEvent.disconnectCall]).socketsCreated = 1
    ∧ (wsRun initWS disconnectReconnectTrace).socketsCreated = 2
    ∧ (wsRun initWS disconnectReconnectTrace).scheduledDelays = [reconnectDelayMs] :=
  ⟨rfl, rfl, rfl, rfl⟩

/-- C3 counterexample: for an HTTP 500 whose body is
`{"message":"upstream down"}`, the axios rejection's own `message` is the
generic status text, and the catch branch stores that — not the payload
message — so the displayed error is not "upstream down". -/
theorem C3_http500_displays_axios_message :
    (fetchData initVM "BTC/USDT" "1h" (Except.ok btcTicker) (Except.ok [])
        (Except.error (axiosHttpError 500 (some "upstream down"))) 7).error
      = some "Request failed with status code 500"
    ∧ ("Request failed with status code 500" : String) ≠ "upstream down" :=
  ⟨rfl, by decide⟩

/-- C3 amended: on analysis failure the shared error field is set to the
error object's `message` when non-empty, else the literal
"Failed to fetch analysis" (the response payload is never consulted); a
subsequent successful fetch clears the error, populates `FullAnalysis` and
stamps the last-update time. -/
theorem C3_error_field_amended (vm : ViewModel) (sym tf : String)
    (tR : Except AxiosErr Ticker) (oR : Except AxiosErr (List OHLCV))
    (e : AxiosErr) (a : FullAnalysis) (now : Int) :
    (fetchData vm sym tf tR oR (Except.error e) now).error
      = some (analysisErrorMessage e)
    ∧ (fetchData vm sym tf tR oR (Except.ok a) now).error = none
    ∧ (fetchData vm sym tf tR oR (Except.ok a) now).analysis = some a
    ∧ (fetchData vm sym tf tR oR (Except.ok a) now).lastUpdate = some now := by
  refine ⟨?_, ?_, ?_, ?_⟩ <;> cases tR <;> cases oR <;> rfl

/-- C4 counterexample: the claim says all three requests are issued before
any of their responses is consumed; in the trace of `fetchData` only the
ticker request is issued before the first response is consumed. -/
theorem C4_not_all_issued_before_consume :
    ¬ specIssuedBeforeAnyConsume fetchDataActions := by
  unfold specIssuedBeforeAnyConsume
  decide

/-- C4 amended: the three fetches of `fetchData` are issued strictly
sequentially — the OHLCV request only after the ticker response is consumed
and the analysis request only after the OHLCV response is consumed — since
each call is awaited before the next statement runs. -/
theorem C4_sequential_fetch_order :
    fetchDataActions =
      [FetchAction.issue Source.ticker, FetchAction.consume Source.ticker,
       FetchAction.issue Source.chart, FetchAction.consume Source.chart,
       FetchAction.issue Source.analysis, FetchAction.consume Source.analysis]
    ∧ fetchDataActions.takeWhile isIssue = [FetchAction.issue Source.ticker] :=
  ⟨rfl, rfl⟩

/-- C5 counterexample: a run of one unexpected close (≤ 5) after which the
reconnect succeeds yields exactly one reconnect attempt, not five, and the
counter stands at 1, far from the exhausted state. -/
theorem C5_single_close_yields_one_reconnect :
    wsTraceValid initWS singleFailureTrace = true
    ∧ closeCount singleFailureTrace = 1
    ∧ (wsRun initWS singleFailureTrace).reconnectAttempts = 1
    ∧ (wsRun initWS singleFailureTrace).scheduledDelays = [reconnectDelayMs]
    ∧ [reconnectDelayMs].length ≠ 5 :=
  ⟨rfl, rfl, rfl, rfl, by decide⟩

/-- C5 amended: over any event sequence from a fresh client, exactly
`min(n, 5)` reconnect attempts are scheduled, where `n` is the number of
close events — each with the fixed 3000 ms delay and each incrementing the
retry counter; once the counter reaches 5 the schedule log never grows
again, so a client reaches five attempts only when the run of closes is at
least five long. -/
theorem C5_reconnect_budget_amended (es : List WSEvent) :
    (wsRun initWS es).reconnectAttempts
      = min (closeCount es) maxReconnectAttempts
    ∧ (wsRun initWS es).scheduledDelays
      = List.replicate (min (closeCount es) maxReconnectAttempts) reconnectDelayMs := by
  have h := wsRun_attempts_closed es initWS (by decide) rfl
  simpa [initWS] using h

/-- C6: the claim says a non-parseable payload must not crash the handler,
must be reported through the error callback, and must not count against the
reconnect budget. In the code `JSON.parse` runs with no try/catch, so the
exception escapes the handler and `onError` is never invoked; only the
"does not touch the counter" part holds. -/
theorem C6_malformed_payload_uncaught :
    onmessage none =
      { tickerUpdate := none, errorReported := false, threw := true,
        attemptsDelta := 0 } :=
  rfl

/-- C7: for every well-formed inbound envelope, the handler invokes the
ticker callback with the payload exactly when the type is "ticker"; every
other type is ignored — no update, no error report, no exception, no
counter change. -/
theorem C7_only_ticker_type_updates (e : Envelope) :
    onmessage (some e) =
      { tickerUpdate := if e.type = "ticker" then some e.data else none,
        errorReported := false, threw := false, attemptsDelta := 0 } := by
  by_cases h : e.type = "ticker" <;> simp [onmessage, h]

/-- C8 counterexample: the round trip is not lossless for every symbol with
exactly one slash: "A-B/C" has one slash, but its path segment "A-B-C"
maps back (first dash replaced) to "A/B-C". -/
theorem C8_roundtrip_fails_on_hyphenated_base :
    charCount '/' "A-B/C" = 1
    ∧ unformatSymbol (formatSymbol "A-B/C") = "A/B-C"
    ∧ ("A/B-C" : String) ≠ "A-B/C" := by
  refine ⟨by decide, rfl, by decide⟩

/-- C8 amended: for a canonical symbol `BASE ++ "/" ++ QUOTE` with exactly
one slash whose BASE contains no dash, the dash substitution is a lossless
round trip: formatting to the path segment and mapping back restores the
symbol. -/
theorem C8_roundtrip_amended (b q : List Char)
    (hb1 : '/' ∉ b) (hb2 : '-' ∉ b) (_hq : '/' ∉ q) :
    unformatSymbol (formatSymbol (String.mk (b ++ '/' :: q)))
      = String.mk (b ++ '/' :: q) := by
  show String.mk (replaceFirst '-' '/' (replaceFirst '/' '-' (b ++ '/' :: q)))
    = String.mk (b ++ '/' :: q)
  rw [replaceFirst_append '/' '-' b q hb1, replaceFirst_append '-' '/' b q hb2]

/-- Base and quote of the round-trip witness "ETH/USDT". -/
def ethBase : List Char := ['E', 'T', 'H']

def usdtQuote : List Char := ['U', 'S', 'D', 'T']

/-- Witness for the amended C8 at the spec's own example "ETH/USDT". -/
theorem C8_roundtrip_witness :
    ('/' ∉ ethBase ∧ '-' ∉ ethBase ∧ '/' ∉ usdtQuote)
    ∧ unformatSymbol (formatSymbol (String.mk (ethBase ++ '/' :: usdtQuote)))
      = String.mk (ethBase ++ '/' :: usdtQuote) :=
  ⟨⟨by decide, by decide, by decide⟩,
    C8_roundtrip_amended ethBase usdtQuote (by decide) (by decide) (by decide)⟩

/-- C9: one firing of the periodic refresher replaces the Ticker entity
wholesale on success and is the identity on the whole view model on failure
(no loading flag, no error, nothing else touched); and each run of the
refresher effect first fully stops the previous interval and then registers
a single fresh 5000 ms interval for the newly selected symbol, whatever was
live before. -/
theorem C9_periodic_refresh_frame (vm : ViewModel) (sym : String)
    (r : Except AxiosErr Ticker) (live : Option RefresherInterval)
    (newSym : String) :
    appStep vm (AppEvent.periodicTick sym r)
      = (match r with
         | Except.ok t => { vm with ticker := some t }
         | Except.error _ => vm)
    ∧ refresherEffectRun live newSym = some { delayMs := 5000, sym := newSym } := by
  refine ⟨?_, rfl⟩
  cases r <;> rfl

/-- C10: the retry counter is monotone over every event — in particular
neither `connect()` nor `disconnect()` resets it — and once it has reached
the budget of 5, no later sequence of events (including further `connect()`
calls) ever schedules an automatic reconnection again. -/
theorem C10_attempts_monotone_never_reset (s : WSState) (es : List WSEvent) :
    (wsStep s WSEvent.connectCall).reconnectAttempts = s.reconnectAttempts
    ∧ (wsStep s WSEvent.disconnectCall).reconnectAttempts = s.reconnectAttempts
    ∧ s.reconnectAttempts ≤ (wsRun s es).reconnectAttempts
    ∧ (maxReconnectAttempts ≤ s.reconnectAttempts →
        (wsRun s es).scheduledDelays = s.scheduledDelays) := by
  have h := wsRun_attempts_mono_frozen es s
  exact ⟨rfl, disconnect_attempts s, h.1, h.2⟩

/-- Witness for C10 at a concrete exhausted client and a concrete later
event sequence containing a further close and a further connect call. -/
theorem C10_exhausted_witness :
    (wsStep exhaustedWS WSEvent.connectCall).reconnectAttempts
      = exhaustedWS.reconnectAttempts
    ∧ (wsStep exhaustedWS WSEvent.disconnectCall).reconnectAttempts
      = exhaustedWS.reconnectAttempts
    ∧ exhaustedWS.reconnectAttempts
      ≤ (wsRun exhaustedWS [WSEvent.closeEvent, WSEvent.connectCall]).reconnectAttempts
    ∧ (wsRun exhaustedWS [WSEvent.closeEvent, WSEvent.connectCall]).scheduledDelays
      = exhaustedWS.scheduledDelays := by
  have h := C10_attempts_monotone_never_reset exhaustedWS
    [WSEvent.closeEvent, WSEvent.connectCall]
  exact ⟨h.1, h.2.1, h.2.2.1, h.2.2.2 (by decide)⟩

end Trader
